import Mathlib

/-!
Verification of the SRS scheduler (`src/srs_scheduler.py`) of the
Multilingual-RAG repository.

The scheduler is embedded shallowly:

* dates are modelled as integers (days); `datetime.now().date()` becomes an
  explicit `today : ℤ` parameter;
* Python floats are modelled as rationals (every constant in the source,
  0.1, 0.08, 0.02, 0.2, 0.5, 1.3, 2.5, is written as the exact rational it
  denotes; no branch of the program depends on binary rounding error);
* the scheduler object's optional attribute `self.cards` (it is never created
  by `__init__`; `update_srs` guards on `hasattr(self, 'cards')`) is modelled
  as an `Option` of an association list from card id to card state;
* a pandas `DataFrame` of cards is modelled as a `List Card`; a column that
  may be absent (`language`, `cefr_level`, `translation`, `context`) is an
  `Option String` field (`none` = absent column, or NaN where the source
  checks `pd.notna`);
* the `next_review` cell may hold either an ISO date string or a date object
  (`get_due_cards` re-parses it in place); both are modelled by `DateVal`,
  keeping the string/date distinction observable;
* `update_srs` performs no assignment to `self` or to any DataFrame, so its
  embedding returns the card map unchanged next to the result dict.
-/

namespace SRS

/-- Scheduler constant `self.min_ease_factor = 1.3`. -/
def min_ease_factor : ℚ := 13/10

/-- Scheduler constant `self.default_ease_factor = 2.5`. -/
def default_ease_factor : ℚ := 5/2

/-- Scheduler constructor default `initial_interval = 1`. -/
def initial_interval : ℤ := 1

/-- A `next_review` / date-valued cell: either a date object or an ISO date
string (which `pd.to_datetime` parses to the same day number). -/
inductive DateVal where
  | str : ℤ → DateVal
  | date : ℤ → DateVal
deriving DecidableEq, Repr

/-- The day denoted by a date cell (`pd.to_datetime(x).dt.date`). -/
def DateVal.toDate : DateVal → ℤ
  | .str d => d
  | .date d => d

/-- One row of the SRS DataFrame: the content columns plus the SRS metadata
columns added by `initialize_srs_metadata`. -/
structure Card where
  card_id : ℕ
  text : String
  language : Option String
  cefr_level : Option String
  translation : Option String
  context : Option String
  interval : ℤ
  ease_factor : ℚ
  repetitions : ℕ
  last_review : Option ℤ
  next_review : DateVal
  quality_history : String
  total_reviews : ℕ
  total_time_spent : ℚ
  avg_quality : ℚ
  card_status : String
deriving DecidableEq, Repr

/-- The dict returned by `update_srs` (its exact seven keys). -/
structure UpdateResult where
  interval : ℤ
  ease_factor : ℚ
  repetitions : ℕ
  last_review : ℤ
  next_review : ℤ
  quality : ℤ
  response_time : ℚ
deriving DecidableEq, Repr

/-- `quality = max(0, min(5, quality))` in `update_srs`. -/
def clampQuality (q : ℤ) : ℤ := max 0 (min 5 q)

/-- Python's built-in `round` (banker's rounding: ties go to the even
integer), used for `round(card['interval'] * card['ease_factor'])`. -/
def pyRound (x : ℚ) : ℤ :=
  if x - x.floor < 1/2 then x.floor
  else if (1:ℚ)/2 < x - x.floor then x.floor + 1
  else if x.floor % 2 = 0 then x.floor else x.floor + 1

/-- `self.cards[card_id] if hasattr(self, 'cards') and card_id in self.cards
else None`: `cards = none` models a scheduler without the `cards`
attribute. -/
def lookupCard (cards : Option (List (ℕ × Card))) (card_id : ℕ) : Option Card :=
  match cards with
  | none => none
  | some m => List.lookup card_id m

/-- `SRSScheduler.update_srs`. Returns the result dict together with the
scheduler's card map after the call; the method only reads `self.cards`
(it contains no assignment to `self` or to any card), so the map component
is returned unchanged. -/
def updateSrs (cards : Option (List (ℕ × Card))) (card_id : ℕ) (quality : ℤ)
    (response_time : ℚ) (today : ℤ) : UpdateResult × Option (List (ℕ × Card)) :=
  let q := clampQuality quality
  if 3 ≤ q then
    let ir : ℤ × ℕ :=
      match lookupCard cards card_id with
      | some card =>
          (if card.repetitions = 0 then 1
           else if card.repetitions = 1 then 6
           else pyRound ((card.interval : ℚ) * card.ease_factor),
           card.repetitions + 1)
      | none => (1, 1)
    let ef := max min_ease_factor
      (default_ease_factor +
        (1/10 - ((5 - q : ℤ) : ℚ) * (2/25 + ((5 - q : ℤ) : ℚ) * (1/50))))
    (⟨ir.1, ef, ir.2, today, today + ir.1, q, response_time⟩, cards)
  else
    (⟨1, max min_ease_factor (default_ease_factor - 1/5), 0,
      today, today + 1, q, response_time⟩, cards)

/-- Clamping is idempotent. -/
theorem clampQuality_clamp (q : ℤ) : clampQuality (clampQuality q) = clampQuality q := by
  unfold clampQuality; omega

/-- A concrete card in the state of spec scenario B: one prior success. -/
def cardB : Card :=
  { card_id := 0, text := "hola", language := some "Spanish",
    cefr_level := some "A1", translation := none, context := none,
    interval := 1, ease_factor := 5/2, repetitions := 1,
    last_review := some 0, next_review := .date 1, quality_history := "",
    total_reviews := 0, total_time_spent := 0, avg_quality := 0,
    card_status := "new" }

/-- A concrete card in the state of spec scenario C. -/
def cardC : Card :=
  { card_id := 0, text := "bonjour", language := some "French",
    cefr_level := some "A2", translation := none, context := none,
    interval := 10, ease_factor := 2, repetitions := 4,
    last_review := some 0, next_review := .date 3, quality_history := "",
    total_reviews := 0, total_time_spent := 0, avg_quality := 0,
    card_status := "review" }

/-- C1: a successful review (clamped quality ≥ 3) of a card found in the
scheduler's card map sets `interval` to 1 / 6 / `round(interval *
ease_factor)` according to the prior repetitions, increments `repetitions`,
and recomputes `ease_factor` from the default 2.5 (not the prior value) by
the SM-2 quality formula, floored at 1.3; in particular prior
`repetitions = 1` gives `interval = 6`, `repetitions = 2`. -/
theorem update_success_fields (cards : Option (List (ℕ × Card))) (card_id : ℕ)
    (quality : ℤ) (rt : ℚ) (today : ℤ) (c : Card)
    (hc : lookupCard cards card_id = some c)
    (hq : 3 ≤ clampQuality quality) :
    ((updateSrs cards card_id quality rt today).1.interval =
        if c.repetitions = 0 then 1 else if c.repetitions = 1 then 6
        else pyRound ((c.interval : ℚ) * c.ease_factor))
    ∧ (updateSrs cards card_id quality rt today).1.repetitions = c.repetitions + 1
    ∧ (updateSrs cards card_id quality rt today).1.ease_factor =
        max min_ease_factor
          (default_ease_factor +
            (1/10 - ((5 - clampQuality quality : ℤ) : ℚ) *
              (2/25 + ((5 - clampQuality quality : ℤ) : ℚ) * (1/50))))
    ∧ (c.repetitions = 1 →
        (updateSrs cards card_id quality rt today).1.interval = 6 ∧
        (updateSrs cards card_id quality rt today).1.repetitions = 2) := by
  simp only [updateSrs, hc, if_pos hq]
  refine ⟨trivial, trivial, trivial, ?_⟩
  intro h1
  simp [h1]

/-- C1 witness: scenario B, the card with `repetitions = 1` reviewed with
`quality = 5` gets `interval = 6`, `repetitions = 2`. -/
theorem update_success_fields_witness :
    lookupCard (some [(0, cardB)]) 0 = some cardB
    ∧ 3 ≤ clampQuality 5
    ∧ ((updateSrs (some [(0, cardB)]) 0 5 0 0).1.interval = 6
       ∧ (updateSrs (some [(0, cardB)]) 0 5 0 0).1.repetitions = 2) := by
  have hc : lookupCard (some [(0, cardB)]) 0 = some cardB := rfl
  exact ⟨hc, by decide,
    (update_success_fields (some [(0, cardB)]) 0 5 0 0 cardB hc (by decide)).2.2.2 rfl⟩

/-- C2: a failed review (clamped quality < 3) sets `interval = 1`,
`repetitions = 0`, `ease_factor = max(1.3, 2.5 - 0.2) = 2.3`, regardless of
the card map and the card's prior state. -/
theorem update_failure_fields (cards : Option (List (ℕ × Card))) (card_id : ℕ)
    (quality : ℤ) (rt : ℚ) (today : ℤ)
    (hq : clampQuality quality < 3) :
    (updateSrs cards card_id quality rt today).1.interval = 1
    ∧ (updateSrs cards card_id quality rt today).1.repetitions = 0
    ∧ (updateSrs cards card_id quality rt today).1.ease_factor = 23/10 := by
  have h : ¬ (3 ≤ clampQuality quality) := by omega
  simp only [updateSrs, if_neg h]
  refine ⟨trivial, trivial, ?_⟩
  show max min_ease_factor (default_ease_factor - 1/5) = 23/10
  rw [min_ease_factor, default_ease_factor]
  norm_num

/-- C2 witness: scenario C, the card with `repetitions = 4, interval = 10,
ease_factor = 2.0` reviewed with `quality = 1` gets `interval = 1`,
`repetitions = 0`, `ease_factor = 2.3`. -/
theorem update_failure_fields_witness :
    clampQuality 1 < 3
    ∧ ((updateSrs (some [(0, cardC)]) 0 1 0 0).1.interval = 1
       ∧ (updateSrs (some [(0, cardC)]) 0 1 0 0).1.repetitions = 0
       ∧ (updateSrs (some [(0, cardC)]) 0 1 0 0).1.ease_factor = 23/10) :=
  ⟨by decide, update_failure_fields (some [(0, cardC)]) 0 1 0 0 (by decide)⟩

/-- C6: `update_srs` never rejects an out-of-range quality: every call equals
the same call with the quality clamped into [0,5]; `quality = 7` behaves
exactly like `quality = 5` and `quality = -3` exactly like `quality = 0`.
(The embedding is a total function: there is no error outcome at all.) -/
theorem update_clamps_quality (cards : Option (List (ℕ × Card))) (card_id : ℕ)
    (rt : ℚ) (today : ℤ) :
    (∀ q : ℤ, updateSrs cards card_id q rt today =
        updateSrs cards card_id (clampQuality q) rt today)
    ∧ updateSrs cards card_id 7 rt today = updateSrs cards card_id 5 rt today
    ∧ updateSrs cards card_id (-3) rt today = updateSrs cards card_id 0 rt today := by
  have key : ∀ q q' : ℤ, clampQuality q = clampQuality q' →
      updateSrs cards card_id q rt today = updateSrs cards card_id q' rt today := by
    intro q q' h
    simp only [updateSrs, h]
  exact ⟨fun q => key q (clampQuality q) (clampQuality_clamp q).symm,
    key 7 5 (by decide), key (-3) 0 (by decide)⟩

/-- One row of the ingested content DataFrame, before SRS columns are added.
`Option` fields model columns that may be absent (or NaN where the source
checks `pd.notna`). -/
structure ContentRow where
  text : String
  language : Option String
  cefr_level : Option String
  translation : Option String
  context : Option String
deriving DecidableEq, Repr

/-- `SRSScheduler.initialize_srs_metadata`: copies the content and adds the
SRS columns with their defaults (`interval = initial_interval`,
`ease_factor = default_ease_factor`, `repetitions = 0`, `last_review = None`,
`next_review = today`, `quality_history = ''`, `total_reviews = 0`,
`total_time_spent = 0.0`, `avg_quality = 0.0`, `card_status = 'new'`);
`card_id` is the row index. -/
def initializeSrsMetadata (today : ℤ) (rows : List ContentRow) : List Card :=
  rows.enum.map (fun p =>
    { card_id := p.1, text := p.2.text, language := p.2.language,
      cefr_level := p.2.cefr_level, translation := p.2.translation,
      context := p.2.context,
      interval := initial_interval, ease_factor := default_ease_factor,
      repetitions := 0, last_review := none, next_review := .date today,
      quality_history := "", total_reviews := 0, total_time_spent := 0,
      avg_quality := 0, card_status := "new" })

/-- Helper: `update_srs` contains no assignment to `self.cards` (or any
DataFrame), so the scheduler's card map after the call is the one before. -/
theorem updateSrs_snd (cards : Option (List (ℕ × Card))) (card_id : ℕ)
    (q : ℤ) (rt : ℚ) (today : ℤ) :
    (updateSrs cards card_id q rt today).2 = cards := by
  by_cases h : 3 ≤ clampQuality q
  · simp [updateSrs, h]
  · simp [updateSrs, h]

/-- C3 counterexample: reviewing `cardB` (with `total_reviews = 0`) with
`quality = 4` does not increment its `total_reviews` to 1 — `update_srs`
writes nothing back to the card map, so the stored card still has
`total_reviews = 0` after the call, contradicting the claim that every
review appends to `quality_history` and increments `total_reviews`. -/
theorem update_does_not_log_history_cex :
    ¬ ((lookupCard (updateSrs (some [(0, cardB)]) 0 4 (5/2) 0).2 0).map
          Card.total_reviews = some (cardB.total_reviews + 1)) := by
  have h2 : lookupCard (updateSrs (some [(0, cardB)]) 0 4 (5/2) 0).2 0
      = some cardB := rfl
  intro h
  rw [h2] at h
  simp at h

/-- C3 amended: `update_srs` mutates no stored card at all — the card map
after the call is the one before it, so `quality_history`, `total_reviews`,
`total_time_spent` and `avg_quality` keep their prior values (and the
invariant `length(quality_history) = total_reviews` is preserved trivially);
the clamped quality and the response time are only carried in the returned
dict. -/
theorem update_leaves_history_unchanged (cards : Option (List (ℕ × Card)))
    (card_id : ℕ) (q : ℤ) (rt : ℚ) (today : ℤ) :
    (updateSrs cards card_id q rt today).2 = cards
    ∧ (updateSrs cards card_id q rt today).1.quality = clampQuality q
    ∧ (updateSrs cards card_id q rt today).1.response_time = rt := by
  refine ⟨updateSrs_snd cards card_id q rt today, ?_, ?_⟩ <;>
    · by_cases h : 3 ≤ clampQuality q
      · simp [updateSrs, h]
      · simp [updateSrs, h]

/-- C4 counterexample: `cardC` has `card_status = "review"`; after a failed
review (`quality = 1`) its stored status is still `"review"` — it was not
demoted toward Learning/New, because `update_srs` never recomputes or writes
`card_status`. -/
theorem update_does_not_demote_status_cex :
    (lookupCard (updateSrs (some [(0, cardC)]) 0 1 0 0).2 0).map
        Card.card_status = some "review"
    ∧ ¬ ((lookupCard (updateSrs (some [(0, cardC)]) 0 1 0 0).2 0).map
            Card.card_status = some "new"
        ∨ (lookupCard (updateSrs (some [(0, cardC)]) 0 1 0 0).2 0).map
            Card.card_status = some "learning") := by
  have h2 : lookupCard (updateSrs (some [(0, cardC)]) 0 1 0 0).2 0
      = some cardC := rfl
  rw [h2]
  exact ⟨rfl, by simp [cardC]⟩

/-- C4 amended: `card_status` is set to `"new"` by `initialize_srs_metadata`
and is never recomputed afterwards: `update_srs` returns the card map
unchanged, so every card's status is sticky history, not a function of its
counters. -/
theorem status_sticky (cards : Option (List (ℕ × Card))) (card_id : ℕ)
    (q : ℤ) (rt : ℚ) (today : ℤ) (d : ℤ) (rows : List ContentRow) :
    (updateSrs cards card_id q rt today).2 = cards
    ∧ (initializeSrsMetadata d rows).map Card.card_status
        = List.replicate rows.length "new" := by
  constructor
  · exact updateSrs_snd cards card_id q rt today
  · simp only [initializeSrsMetadata, List.map_map]
    rw [List.eq_replicate_iff]
    constructor
    · simp
    · intro b hb
      rcases List.mem_map.mp hb with ⟨p, _, rfl⟩
      rfl

/-- The in-place conversion
`df_srs['next_review'] = pd.to_datetime(df_srs['next_review']).dt.date`
performed by `get_due_cards` on one card: the `next_review` cell is replaced
by the date it denotes; every other column is untouched. -/
def normalizeCard (c : Card) : Card :=
  { c with next_review := .date c.next_review.toDate }

/-- The sort key of `due_cards.sort_values(['next_review', 'ease_factor'])`:
ascending `next_review`, ties broken by ascending `ease_factor`. -/
def dueLeB (a b : Card) : Bool :=
  decide (a.next_review.toDate < b.next_review.toDate
    ∨ (a.next_review.toDate = b.next_review.toDate ∧ a.ease_factor ≤ b.ease_factor))

/-- `SRSScheduler.get_due_cards`: first component is the DataFrame after the
in-place `next_review` conversion (the function mutates its argument), second
is the returned due list — the rows with `next_review <= date`, sorted by
`(next_review, ease_factor)`. -/
def getDueCards (df_srs : List Card) (date : ℤ) : List Card × List Card :=
  let df := df_srs.map normalizeCard
  let due := df.filter (fun c => decide (c.next_review.toDate ≤ date))
  (df, due.mergeSort dueLeB)

/-- The due-list key order is transitive. -/
theorem dueLeB_trans (a b c : Card) (hab : dueLeB a b = true)
    (hbc : dueLeB b c = true) : dueLeB a c = true := by
  simp only [dueLeB, decide_eq_true_eq] at *
  rcases hab with h | ⟨h1, h2⟩ <;> rcases hbc with h' | ⟨h1', h2'⟩
  · exact Or.inl (lt_trans h h')
  · exact Or.inl (h1' ▸ h)
  · exact Or.inl (h1 ▸ h')
  · exact Or.inr ⟨h1.trans h1', h2.trans h2'⟩

/-- The due-list key order is total. -/
theorem dueLeB_total (a b : Card) : (dueLeB a b || dueLeB b a) = true := by
  simp only [dueLeB, Bool.or_eq_true, decide_eq_true_eq]
  rcases lt_trichotomy a.next_review.toDate b.next_review.toDate with h | h | h
  · exact Or.inl (Or.inl h)
  · rcases le_total a.ease_factor b.ease_factor with h2 | h2
    · exact Or.inl (Or.inr ⟨h, h2⟩)
    · exact Or.inr (Or.inr ⟨h.symm, h2⟩)
  · exact Or.inr (Or.inl h)

/-- C5: the due list returned by `get_due_cards` is a permutation of exactly
the (normalized) rows with `next_review <= as_of_date`, it contains no card
with `next_review > as_of_date`, and it is sorted by ascending `next_review`
with ties broken by ascending `ease_factor`. -/
theorem due_cards_exact_and_sorted (df : List Card) (date : ℤ) :
    ((getDueCards df date).2).Perm
        ((df.map normalizeCard).filter (fun c => decide (c.next_review.toDate ≤ date)))
    ∧ ((getDueCards df date).2).filter
        (fun c => decide (date < c.next_review.toDate)) = []
    ∧ List.Pairwise (fun a b => a.next_review.toDate < b.next_review.toDate
        ∨ (a.next_review.toDate = b.next_review.toDate ∧ a.ease_factor ≤ b.ease_factor))
        (getDueCards df date).2 := by
  refine ⟨List.mergeSort_perm _ _, ?_, ?_⟩
  · rw [List.filter_eq_nil_iff]
    intro c hc
    have hmem := (List.mergeSort_perm
      ((df.map normalizeCard).filter (fun c => decide (c.next_review.toDate ≤ date)))
      dueLeB).mem_iff.mp hc
    have hle := List.of_mem_filter hmem
    simp only [decide_eq_true_eq] at hle
    simp only [decide_eq_true_eq]
    omega
  · have hs := List.sorted_mergeSort dueLeB_trans dueLeB_total
      ((df.map normalizeCard).filter (fun c => decide (c.next_review.toDate ≤ date)))
    exact hs.imp (fun h => by simpa [dueLeB, decide_eq_true_eq] using h)

/-- The dict returned by `get_learning_statistics`; the `value_counts`
dictionaries are modelled by their content, a count per value. -/
structure LearningStats where
  total_cards : ℕ
  new_cards : ℕ
  learning_cards : ℕ
  review_cards : ℕ
  due_today : ℕ
  languages : String → ℕ
  levels : String → ℕ
  avg_ease_factor : ℚ
  avg_interval : ℚ

/-- `len(df[df['card_status'] == s])`. -/
def countStatus (df : List Card) (s : String) : ℕ :=
  (df.filter (fun c => c.card_status == s)).length

/-- One entry of `df[col].value_counts().to_dict()`: how many rows carry the
value `s` in the column read by `f`. -/
def valueCount (f : Card → Option String) (df : List Card) (s : String) : ℕ :=
  (df.filter (fun c => f c == some s)).length

/-- `SRSScheduler.get_learning_statistics`: the statistics dict, paired with
the DataFrame after the call — the call runs `get_due_cards` on it, and
`get_due_cards` rewrites the `next_review` column in place. -/
def getLearningStatistics (df_srs : List Card) (today : ℤ) :
    LearningStats × List Card :=
  let total_cards := df_srs.length
  let new_cards := countStatus df_srs "new"
  let learning_cards := countStatus df_srs "learning"
  let review_cards := countStatus df_srs "review"
  let p := getDueCards df_srs today
  ({ total_cards := total_cards, new_cards := new_cards,
     learning_cards := learning_cards, review_cards := review_cards,
     due_today := p.2.length,
     languages := fun s => valueCount Card.language p.1 s,
     levels := fun s => valueCount Card.cefr_level p.1 s,
     avg_ease_factor := if 0 < p.1.length
       then (p.1.map Card.ease_factor).sum / (p.1.length : ℚ) else 0,
     avg_interval := if 0 < p.1.length
       then (p.1.map (fun c => (c.interval : ℚ))).sum / (p.1.length : ℚ) else 0 },
   p.1)

/-- A card whose persisted `next_review` is still an (ISO) date string; the
string denotes day 5 but is a different value from the parsed date. -/
def cardStr : Card :=
  { card_id := 2, text := "hallo", language := some "German",
    cefr_level := some "A1", translation := none, context := none,
    interval := 1, ease_factor := 5/2, repetitions := 0,
    last_review := none, next_review := .str 5, quality_history := "",
    total_reviews := 0, total_time_spent := 0, avg_quality := 0,
    card_status := "new" }

/-- C8 counterexample: computing the learning statistics over a store whose
single card holds `next_review` as a string does change that card — the call
reaches `get_due_cards`, which overwrites `next_review` with the parsed
date, so the store after the call differs from the store before it. -/
theorem stats_mutate_next_review_cex :
    (getLearningStatistics [cardStr] 0).2 ≠ [cardStr] := by
  intro h
  have h0 : (getLearningStatistics [cardStr] 0).2 = [normalizeCard cardStr] := rfl
  rw [h0] at h
  have h1 : normalizeCard cardStr = cardStr := by
    injection h
  have h2 := congrArg Card.next_review h1
  simp [normalizeCard, cardStr, DateVal.toDate] at h2

/-- C8 amended: `get_learning_statistics` is read-only on every column except
`next_review`: the store after the call is the card-wise `next_review`
normalization of the store before it, the normalization changes no other
field, and a card whose `next_review` already is a date is left entirely
unchanged. -/
theorem stats_pure_up_to_date_normalization (df : List Card) (today : ℤ) :
    (getLearningStatistics df today).2 = df.map normalizeCard
    ∧ (∀ c : Card,
        (normalizeCard c).card_id = c.card_id
        ∧ (normalizeCard c).text = c.text
        ∧ (normalizeCard c).language = c.language
        ∧ (normalizeCard c).cefr_level = c.cefr_level
        ∧ (normalizeCard c).translation = c.translation
        ∧ (normalizeCard c).context = c.context
        ∧ (normalizeCard c).interval = c.interval
        ∧ (normalizeCard c).ease_factor = c.ease_factor
        ∧ (normalizeCard c).repetitions = c.repetitions
        ∧ (normalizeCard c).last_review = c.last_review
        ∧ (normalizeCard c).quality_history = c.quality_history
        ∧ (normalizeCard c).total_reviews = c.total_reviews
        ∧ (normalizeCard c).total_time_spent = c.total_time_spent
        ∧ (normalizeCard c).avg_quality = c.avg_quality
        ∧ (normalizeCard c).card_status = c.card_status
        ∧ (normalizeCard c).next_review = .date c.next_review.toDate)
    ∧ (∀ (c : Card) (d : ℤ),
        normalizeCard { c with next_review := .date d }
          = { c with next_review := .date d }) :=
  ⟨rfl,
   fun _ => ⟨rfl, rfl, rfl, rfl, rfl, rfl, rfl, rfl, rfl, rfl, rfl, rfl, rfl,
     rfl, rfl, rfl⟩,
   fun _ _ => rfl⟩

/-- C10: on an empty store the statistics reporter returns 0 for every count
and — thanks to the explicit `len(df_srs) > 0` guards — 0 for both averages,
rather than a division by zero / NaN. -/
theorem stats_empty_store (today : ℤ) :
    (getLearningStatistics [] today).1.total_cards = 0
    ∧ (getLearningStatistics [] today).1.new_cards = 0
    ∧ (getLearningStatistics [] today).1.learning_cards = 0
    ∧ (getLearningStatistics [] today).1.review_cards = 0
    ∧ (getLearningStatistics [] today).1.due_today = 0
    ∧ (∀ s, (getLearningStatistics [] today).1.languages s = 0)
    ∧ (∀ s, (getLearningStatistics [] today).1.levels s = 0)
    ∧ (getLearningStatistics [] today).1.avg_ease_factor = 0
    ∧ (getLearningStatistics [] today).1.avg_interval = 0 := by
  refine ⟨rfl, rfl, rfl, rfl, ?_, fun s => rfl, fun s => rfl, rfl, rfl⟩
  show (List.mergeSort [] dueLeB).length = 0
  simp

/-- The dict returned by `suggest_study_session`. -/
structure SessionPlan where
  recommended_cards : ℕ
  estimated_time : ℚ
  breakdown_new : ℕ
  breakdown_review : ℕ
  breakdown_learning : ℕ
  languages : String → ℕ

/-- `estimated_time_per_card = 0.5` minutes (30 seconds per card). -/
def estimated_time_per_card : ℚ := 1/2

/-- `df.head(n)` for a pandas DataFrame: the first `n` rows when `n ≥ 0`,
all but the last `|n|` rows when `n < 0`. -/
def pdHead {α : Type} (n : ℤ) (l : List α) : List α :=
  if 0 ≤ n then l.take n.toNat else l.take (l.length - (-n).toNat)

/-- `SRSScheduler.suggest_study_session`: `max_cards =
int(target_minutes / 0.5)`, which is exactly `2 * target_minutes` for the
integer `target_minutes` (the float division by 0.5 and the truncation are
both exact here); the session is `due_cards.head(max_cards)`. The second
component is the DataFrame after the call (mutated by `get_due_cards`). -/
def suggestStudySession (df_srs : List Card) (target_minutes : ℤ) (today : ℤ) :
    SessionPlan × List Card :=
  let p := getDueCards df_srs today
  let max_cards : ℤ := 2 * target_minutes
  let session := pdHead max_cards p.2
  ({ recommended_cards := session.length,
     estimated_time := (session.length : ℚ) * estimated_time_per_card,
     breakdown_new := countStatus session "new",
     breakdown_review := countStatus session "review",
     breakdown_learning := countStatus session "learning",
     languages := fun s => valueCount Card.language session s }, p.1)

/-- C7: for a non-negative time budget the planner selects a prefix of the
already-sorted due list (never reordering it), of the largest size whose
estimated time — 30 seconds per card — fits in `target_minutes`, and a
budget with zero capacity yields an empty selection (the function is total:
there is no error outcome). -/
theorem session_selects_largest_fitting_head (df : List Card)
    (target today : ℤ) (h : 0 ≤ target) :
    (suggestStudySession df target today).1.recommended_cards
        = (pdHead (2 * target) (getDueCards df today).2).length
    ∧ (pdHead (2 * target) (getDueCards df today).2) <+: (getDueCards df today).2
    ∧ ((pdHead (2 * target) (getDueCards df today).2).length : ℤ) * 30
        ≤ 60 * target
    ∧ ((pdHead (2 * target) (getDueCards df today).2).length
          < (getDueCards df today).2.length →
        60 * target
          < (((pdHead (2 * target) (getDueCards df today).2).length : ℤ) + 1) * 30)
    ∧ (target = 0 → (suggestStudySession df target today).1.recommended_cards = 0) := by
  have h2 : (0:ℤ) ≤ 2 * target := by omega
  have hhead : pdHead (2 * target) (getDueCards df today).2
      = ((getDueCards df today).2).take (2 * target).toNat := by
    simp [pdHead, h2]
  have hlen : (pdHead (2 * target) (getDueCards df today).2).length
      = min (2 * target).toNat ((getDueCards df today).2).length := by
    rw [hhead, List.length_take]
  have hcast : ((2 * target).toNat : ℤ) = 2 * target := Int.toNat_of_nonneg h2
  refine ⟨rfl, ?_, ?_, ?_, ?_⟩
  · rw [hhead]
    exact ⟨((getDueCards df today).2).drop (2 * target).toNat,
      List.take_append_drop _ _⟩
  · have : (pdHead (2 * target) (getDueCards df today).2).length
        ≤ (2 * target).toNat := by omega
    omega
  · intro hlt
    have : (pdHead (2 * target) (getDueCards df today).2).length
        = (2 * target).toNat := by omega
    omega
  · intro ht
    subst ht
    simp only [suggestStudySession]
    omega

/-- Three due cards (scenario D). -/
def cardD1 : Card := { cardB with card_id := 11, next_review := .date 1 }

/-- Second due card. -/
def cardD2 : Card :=
  { cardB with card_id := 12, next_review := .date 2, ease_factor := 2 }

/-- Third due card. -/
def cardD3 : Card :=
  { cardB with card_id := 13, next_review := .date 3, card_status := "learning" }

/-- A store with exactly three cards, all due on day 10. -/
def demoStore3 : List Card := [cardD1, cardD2, cardD3]

/-- C7 witness: scenario D — 3 due cards, `target_minutes = 1` at 30 seconds
per card select exactly 2 cards. -/
theorem session_selects_largest_fitting_head_witness :
    ((0:ℤ) ≤ 1)
    ∧ (suggestStudySession demoStore3 1 10).1.recommended_cards = 2 := by
  have h := session_selects_largest_fitting_head demoStore3 1 10 (by norm_num)
  refine ⟨by norm_num, ?_⟩
  rw [h.1]
  have e1 : (getDueCards demoStore3 10).2
      = ((demoStore3.map normalizeCard).filter
          (fun c => decide (c.next_review.toDate ≤ 10))).mergeSort dueLeB := rfl
  have hlen3 : ((getDueCards demoStore3 10).2).length = 3 := by
    rw [e1, (List.mergeSort_perm _ dueLeB).length_eq]
    rfl
  have e2 : pdHead (2 * (1:ℤ)) (getDueCards demoStore3 10).2
      = ((getDueCards demoStore3 10).2).take 2 := by
    simp [pdHead]
  rw [e2, List.length_take, hlen3]
  rfl

/-- Python's `sep.join(parts)`. -/
def joinSep (sep : String) : List String → String
  | [] => ""
  | [a] => a
  | a :: b :: rest => a ++ sep ++ joinSep sep (b :: rest)

/-- The tag list built by `export_to_anki_format`: the `language` value and
the `cefr_level` value, each when its column is present. -/
def exportTags (c : Card) : List String :=
  (match c.language with | some l => [l] | none => [])
    ++ (match c.cefr_level with | some l => [l] | none => [])

/-- `tag_string = ' '.join(tags) if tags else ''` (the join of an empty list
is already the empty string). -/
def tagString (c : Card) : String := joinSep " " (exportTags c)

/-- The line `export_to_anki_format` emits for one row:
`f"{front}\t{back}\t{tag_string}"`, where `back` starts from
`f"Language: ...<br>Level: ..."` and is extended by the `Translation` and
`Context` parts when those cells are present and not NaN (the context is cut
to its first 100 characters and suffixed with `"..."`). -/
def ankiLine (c : Card) : String :=
  let back := "Language: " ++ c.language.getD "Unknown" ++ "<br>Level: "
      ++ c.cefr_level.getD "Unknown"
  let back := match c.translation with
    | some t => back ++ "<br>Translation: " ++ t
    | none => back
  let back := match c.context with
    | some x => back ++ "<br>Context: " ++ x.take 100 ++ "..."
    | none => back
  c.text ++ "\t" ++ back ++ "\t" ++ tagString c

/-- The back field exactly as claim C9 words it: a `<br>`-joined
concatenation of the labeled fields `Language`, `Level` and optionally
`Translation` — nothing else. -/
def backClaim (c : Card) : String :=
  joinSep "<br>" (["Language: " ++ c.language.getD "Unknown",
    "Level: " ++ c.cefr_level.getD "Unknown"]
    ++ (match c.translation with | some t => ["Translation: " ++ t] | none => []))

/-- The whole export line as claim C9 words it. -/
def claimLine (c : Card) : String :=
  c.text ++ "\t" ++ backClaim c ++ "\t" ++ tagString c

/-- The back field as the amended claim words it: additionally an optional
`Context` part, truncated to 100 characters with `"..."` appended. -/
def backAmended (c : Card) : String :=
  joinSep "<br>" (["Language: " ++ c.language.getD "Unknown",
    "Level: " ++ c.cefr_level.getD "Unknown"]
    ++ (match c.translation with | some t => ["Translation: " ++ t] | none => [])
    ++ (match c.context with
        | some x => ["Context: " ++ x.take 100 ++ "..."] | none => []))

/-- `export_df = df_srs.copy(); if max_cards: export_df =
export_df.head(max_cards)` — note `max_cards = 0` is falsy in Python, so 0
means no truncation. -/
def truncateExport (df : List Card) (max_cards : Option ℕ) : List Card :=
  match max_cards with
  | some n => if n = 0 then df else df.take n
  | none => df

/-- The `anki_lines` list: one line per exported row. -/
def ankiLines (df : List Card) (max_cards : Option ℕ) : List String :=
  (truncateExport df max_cards).map ankiLine

/-- The file content written by `export_to_anki_format`:
`'\n'.join(anki_lines)`. -/
def exportToAnkiFormat (df : List Card) (max_cards : Option ℕ) : String :=
  joinSep "\n" (ankiLines df max_cards)

/-- A card carrying a `context` cell. -/
def cardCtx : Card := { cardB with card_id := 9, context := some "greeting" }

set_option maxRecDepth 8192 in
/-- C9 counterexample: for a card with a `context` cell the emitted line is
not the claimed `front<TAB>back<TAB>tags` with `back` made only of the
`Language`/`Level`/`Translation` parts — the code appends a fourth,
`Context`, part that the claim does not allow. -/
theorem export_line_claim_cex : ankiLine cardCtx ≠ claimLine cardCtx := by
  decide

/-- C9 amended: every exported card yields the line
`front<TAB>back<TAB>tags` where `back` is the `<br>`-joined concatenation of
`Language: X`, `Level: Y`, optionally `Translation: Z` and optionally
`Context: W` (`W` the context truncated to 100 characters with `...`
appended), and `tags` is the space-joined tag values; for a card without a
context cell the line is exactly as the original claim states; the file is
the newline-join of one such line per exported card. -/
theorem export_line_format (c : Card) :
    ankiLine c = c.text ++ "\t" ++ backAmended c ++ "\t" ++ tagString c
    ∧ (c.context = none → ankiLine c = claimLine c)
    ∧ (∀ (df : List Card) (mc : Option ℕ),
        exportToAnkiFormat df mc = joinSep "\n" (ankiLines df mc)
        ∧ (ankiLines df mc).length = (truncateExport df mc).length) := by
  have hL : ∀ s : String, "<br>Level: " ++ s = "<br>" ++ ("Level: " ++ s) := by
    intro s
    have h0 : ("<br>Level: " : String) = "<br>" ++ "Level: " := by decide
    rw [h0, String.append_assoc]
  have hT : ∀ s : String,
      "<br>Translation: " ++ s = "<br>" ++ ("Translation: " ++ s) := by
    intro s
    have h0 : ("<br>Translation: " : String) = "<br>" ++ "Translation: " := by
      decide
    rw [h0, String.append_assoc]
  have hC : ∀ s : String,
      "<br>Context: " ++ s = "<br>" ++ ("Context: " ++ s) := by
    intro s
    have h0 : ("<br>Context: " : String) = "<br>" ++ "Context: " := by decide
    rw [h0, String.append_assoc]
  refine ⟨?_, ?_, fun df mc => ⟨rfl, by simp [ankiLines]⟩⟩
  · rcases ht : c.translation with _ | t <;> rcases hx : c.context with _ | x <;>
      simp only [ankiLine, backAmended, joinSep, ht, hx, List.append_nil,
        List.cons_append, List.nil_append, String.append_assoc, hL, hT, hC]
  · intro hx
    rcases ht : c.translation with _ | t <;>
      simp only [ankiLine, claimLine, backClaim, joinSep, ht, hx,
        List.append_nil, List.cons_append, List.nil_append,
        String.append_assoc, hL, hT]

/-- C9 witness for the amended claim's no-context case: `cardB` has no
context cell and its line is exactly the claimed format. -/
theorem export_line_format_witness :
    cardB.context = none ∧ ankiLine cardB = claimLine cardB :=
  ⟨rfl, (export_line_format cardB).2.1 rfl⟩

end SRS
